import Mathlib

/-!
Verification of the UDP Offload Engine (UOE) register-map contract.

The repository consists of three C headers:
* `main_uoe_registers.h` — the main engine register block (`main_uoe_registers`),
* `test_uoe_registers.h` — the test engine register block (`test_uoe_registers`),
* `enums_uoe_registers.h` — the built-in-test enumeration `T_BIT`.

Each register is declared as a `union` of a 32-bit `regValue` with a packed
struct of named bit-fields.  We embed every register as an ordered list of
field descriptors (name, bit offset, bit width), with the bit offset computed
as the sum of the widths of the preceding fields, exactly as the packed
declaration lays consecutive bit-fields from bit 0 upward.

The register-field codec (`extract` / `insert`), the strict-mode insert and
the four-register interrupt aggregator have no implementation in the
repository (the headers are pure data declarations); they are modelled from
the specification's words and marked as such in their doc comments.
-/

namespace UOE

/-- A field descriptor: field name, bit offset within its 32-bit register,
and bit width, as declared in the packed bit-field struct. -/
structure Field where
  name : String
  offset : Nat
  width : Nat
deriving DecidableEq, Repr

/-- A register: its name and its ordered list of field descriptors. -/
structure Reg where
  name : String
  fields : List Field
deriving DecidableEq, Repr

/-- Assign bit offsets to a list of (name, width) pairs by consecutive
packing starting at `start`, as C packs successive bit-fields. -/
def mkFields (start : Nat) : List (String × Nat) → List Field
  | [] => []
  | (n, w) :: rest => ⟨n, start, w⟩ :: mkFields (start + w) rest

/-- Build a register from its declared (name, width) list, packing from bit 0. -/
def mkReg (n : String) (fs : List (String × Nat)) : Reg :=
  ⟨n, mkFields 0 fs⟩

/-! ### The main engine block, `main_uoe_registers.h` -/

def main_reg_arp_configuration : Reg :=
  mkReg "reg_arp_configuration"
    [("arp_timeout_ms", 12), ("arp_tryings", 4), ("arp_gratuitous_req", 1),
     ("arp_rx_target_ip_filter", 2), ("arp_rx_test_local_ip_conflict", 1),
     ("arp_table_clear", 1), ("padding6", 11)]

def main_reg_interrupt_status : Reg :=
  mkReg "reg_interrupt_status"
    [("irq_init_done_status", 1), ("irq_arp_table_clear_done_status", 1),
     ("irq_arp_ip_conflict_status", 1), ("irq_arp_mac_conflict_status", 1),
     ("irq_arp_error_status", 1), ("irq_arp_rx_fifo_overflow_status", 1),
     ("irq_router_data_rx_fifo_overflow_status", 1),
     ("irq_router_crc_rx_fifo_overflow_status", 1),
     ("irq_ipv4_rx_frag_offset_error_status", 1), ("padding9", 23)]

def main_reg_interrupt_enable : Reg :=
  mkReg "reg_interrupt_enable"
    [("irq_init_done_enable", 1), ("irq_arp_table_clear_done_enable", 1),
     ("irq_arp_ip_conflict_enable", 1), ("irq_arp_mac_conflict_enable", 1),
     ("irq_arp_error_enable", 1), ("irq_arp_rx_fifo_overflow_enable", 1),
     ("irq_router_data_rx_fifo_overflow_enable", 1),
     ("irq_router_crc_rx_fifo_overflow_enable", 1),
     ("irq_ipv4_rx_frag_offset_error_enable", 1), ("padding9", 23)]

def main_reg_interrupt_clear : Reg :=
  mkReg "reg_interrupt_clear"
    [("irq_init_done_clear", 1), ("irq_arp_table_clear_done_clear", 1),
     ("irq_arp_ip_conflict_clear", 1), ("irq_arp_mac_conflict_clear", 1),
     ("irq_arp_error_clear", 1), ("irq_arp_rx_fifo_overflow_clear", 1),
     ("irq_router_data_rx_fifo_overflow_clear", 1),
     ("irq_router_crc_rx_fifo_overflow_clear", 1),
     ("irq_ipv4_rx_frag_offset_error_clear", 1), ("padding9", 23)]

def main_reg_interrupt_set : Reg :=
  mkReg "reg_interrupt_set"
    [("irq_init_done_set", 1), ("irq_arp_table_clear_done_set", 1),
     ("irq_arp_ip_conflict_set", 1), ("irq_arp_mac_conflict_set", 1),
     ("irq_arp_error_set", 1), ("irq_arp_rx_fifo_overflow_set", 1),
     ("irq_router_data_rx_fifo_overflow_set", 1),
     ("irq_router_crc_rx_fifo_overflow_set", 1),
     ("irq_ipv4_rx_frag_offset_error_set", 1), ("padding9", 23)]

/-- The `main_uoe_registers` struct as an ordered list of 32-bit words.
`padding15` is declared in the header as a bare `unsigned int` member (not a
union); it is modelled as a full-word padding register. -/
def mainBlock : List Reg :=
  [mkReg "reg_version" [("version", 8), ("revision", 8), ("debug", 16)],
   mkReg "reg_local_mac_addr_lsb" [("local_mac_addr_lsb", 32)],
   mkReg "reg_local_mac_addr_msb" [("local_mac_addr_msb", 16), ("padding1", 16)],
   mkReg "reg_local_ip_addr" [("local_ip_addr", 32)],
   mkReg "reg_raw_dest_mac_addr_lsb" [("raw_dest_mac_addr_lsb", 32)],
   mkReg "reg_raw_dest_mac_addr_msb" [("raw_dest_mac_addr_msb", 16), ("padding1", 16)],
   mkReg "reg_ipv4_time_to_leave" [("ttl", 8), ("padding1", 24)],
   mkReg "reg_filtering_control"
     [("broadcast_filter_enable", 1), ("ipv4_multicast_filter_enable", 1),
      ("unicast_filter_enable", 1), ("padding3", 29)],
   mkReg "reg_ipv4_multicast_ip_addr_1"
     [("multicast_ip_addr_1", 28), ("multicast_ip_addr_1_enable", 1), ("padding2", 3)],
   mkReg "reg_ipv4_multicast_ip_addr_2"
     [("multicast_ip_addr_2", 28), ("multicast_ip_addr_2_enable", 1), ("padding2", 3)],
   mkReg "reg_ipv4_multicast_ip_addr_3"
     [("multicast_ip_addr_3", 28), ("multicast_ip_addr_3_enable", 1), ("padding2", 3)],
   mkReg "reg_ipv4_multicast_ip_addr_4"
     [("multicast_ip_addr_4", 28), ("multicast_ip_addr_4_enable", 1), ("padding2", 3)],
   main_reg_arp_configuration,
   mkReg "reg_arp_sw_req" [("arp_sw_req_dest_ip_addr", 32)],
   mkReg "reg_config_done" [("config_done", 1), ("padding1", 31)],
   mkReg "padding15" [("padding15", 32)],
   mkReg "reg_monitoring_crc_filter" [("crc_filter_counter", 32)],
   mkReg "reg_monitoring_mac_filter" [("mac_filter_counter", 32)],
   mkReg "reg_monitoring_ext_drop" [("ext_drop_counter", 32)],
   mkReg "reg_monitoring_raw_drop" [("raw_drop_counter", 32)],
   mkReg "reg_monitoring_udp_drop" [("udp_drop_counter", 32)],
   main_reg_interrupt_status,
   main_reg_interrupt_enable,
   main_reg_interrupt_clear,
   main_reg_interrupt_set]

/-! ### The test engine block, `test_uoe_registers.h` -/

def test_reg_gen_config : Reg :=
  mkReg "reg_gen_config"
    [("gen_frame_size_type", 1), ("padding1", 16),
     ("gen_frame_size_static", 16), ("gen_rate_limitation", 8)]

def test_reg_chk_config : Reg :=
  mkReg "reg_chk_config"
    [("chk_frame_size_type", 1), ("padding1", 16),
     ("chk_frame_size_static", 16), ("chk_rate_limitation", 8)]

def test_reg_interrupt_status : Reg :=
  mkReg "reg_interrupt_status"
    [("irq_gen_done_status", 1), ("irq_gen_err_timeout_status", 1),
     ("irq_chk_done_status", 1), ("irq_chk_err_frame_size_status", 1),
     ("irq_chk_err_data_status", 1), ("irq_chk_err_timeout_status", 1),
     ("irq_rate_meter_tx_done_status", 1), ("irq_rate_meter_tx_overflow_status", 1),
     ("irq_rate_meter_rx_done_status", 1), ("irq_rate_meter_rx_overflow_status", 1),
     ("padding10", 22)]

def test_reg_interrupt_enable : Reg :=
  mkReg "reg_interrupt_enable"
    [("irq_gen_done_enable", 1), ("irq_gen_err_timeout_enable", 1),
     ("irq_chk_done_enable", 1), ("irq_chk_err_frame_size_enable", 1),
     ("irq_chk_err_data_enable", 1), ("irq_chk_err_timeout_enable", 1),
     ("irq_rate_meter_tx_done_enable", 1), ("irq_rate_meter_tx_overflow_enable", 1),
     ("irq_rate_meter_rx_done_enable", 1), ("irq_rate_meter_rx_overflow_enable", 1),
     ("padding10", 22)]

def test_reg_interrupt_clear : Reg :=
  mkReg "reg_interrupt_clear"
    [("irq_gen_done_clear", 1), ("irq_gen_err_timeout_clear", 1),
     ("irq_chk_done_clear", 1), ("irq_chk_err_frame_size_clear", 1),
     ("irq_chk_err_data_clear", 1), ("irq_chk_err_timeout_clear", 1),
     ("irq_rate_meter_tx_done_clear", 1), ("irq_rate_meter_tx_overflow_clear", 1),
     ("irq_rate_meter_rx_done_clear", 1), ("irq_rate_meter_rx_overflow_clear", 1),
     ("padding10", 22)]

def test_reg_interrupt_set : Reg :=
  mkReg "reg_interrupt_set"
    [("irq_gen_done_set", 1), ("irq_gen_err_timeout_set", 1),
     ("irq_chk_done_set", 1), ("irq_chk_err_frame_size_set", 1),
     ("irq_chk_err_data_set", 1), ("irq_chk_err_timeout_set", 1),
     ("irq_rate_meter_tx_done_set", 1), ("irq_rate_meter_tx_overflow_set", 1),
     ("irq_rate_meter_rx_done_set", 1), ("irq_rate_meter_rx_overflow_set", 1),
     ("padding10", 22)]

/-- The `test_uoe_registers` struct as an ordered list of 32-bit words. -/
def testBlock : List Reg :=
  [mkReg "reg_gen_chk_control"
     [("loopback_mac_en", 1), ("loopback_udp_en", 1), ("gen_start", 1),
      ("gen_stop", 1), ("chk_start", 1), ("chk_stop", 1), ("padding6", 26)],
   test_reg_gen_config,
   mkReg "reg_gen_nb_bytes_lsb" [("gen_nb_bytes_lsb", 32)],
   mkReg "reg_gen_nb_bytes_msb" [("gen_nb_bytes_msb", 32)],
   mkReg "reg_gen_test_duration_lsb" [("gen_test_duration_lsb", 32)],
   mkReg "reg_gen_test_duration_msb" [("gen_test_duration_msb", 32)],
   test_reg_chk_config,
   mkReg "reg_chk_nb_bytes_lsb" [("chk_nb_bytes_lsb", 32)],
   mkReg "reg_chk_nb_bytes_msb" [("chk_nb_bytes_msb", 32)],
   mkReg "reg_chk_test_duration_lsb" [("chk_test_duration_lsb", 32)],
   mkReg "reg_chk_test_duration_msb" [("chk_test_duration_msb", 32)],
   mkReg "reg_lb_gen_udp_port" [("lb_gen_dest_port", 16), ("lb_gen_src_port", 16)],
   mkReg "reg_lb_gen_dest_ip_addr" [("lb_gen_dest_ip_addr", 32)],
   mkReg "reg_chk_udp_port" [("chk_listening_port", 16), ("padding1", 16)],
   test_reg_interrupt_status,
   test_reg_interrupt_enable,
   test_reg_interrupt_clear,
   test_reg_interrupt_set,
   mkReg "reg_tx_rate_meter_ctrl" [("tx_rm_init_counter", 1), ("padding1", 31)],
   mkReg "reg_tx_rm_bytes_expt_lsb" [("tx_rm_bytes_expt_lsb", 32)],
   mkReg "reg_tx_rm_bytes_expt_msb" [("tx_rm_bytes_expt_msb", 32)],
   mkReg "reg_tx_rm_cnt_bytes_lsb" [("tx_rm_cnt_bytes_lsb", 32)],
   mkReg "reg_tx_rm_cnt_bytes_msb" [("tx_rm_cnt_bytes_msb", 32)],
   mkReg "reg_tx_rm_cnt_cycles_lsb" [("tx_rm_cnt_cycles_lsb", 32)],
   mkReg "reg_tx_rm_cnt_cycles_msb" [("tx_rm_cnt_cycles_msb", 32)],
   mkReg "reg_rx_rate_meter_ctrl" [("rx_rm_init_counter", 1), ("padding1", 31)],
   mkReg "reg_rx_fm_bytes_expt_lsb" [("rx_rm_bytes_expt_lsb", 32)],
   mkReg "reg_rx_rm_bytes_expt_msb" [("rx_rm_bytes_expt_msb", 32)],
   mkReg "reg_rx_rm_cnt_bytes_lsb" [("rx_rm_cnt_bytes_lsb", 32)],
   mkReg "reg_rx_rm_cnt_bytes_msb" [("rx_rm_cnt_bytes_msb", 32)],
   mkReg "reg_rx_rm_cnt_cycles_lsb" [("rx_rm_cnt_cycles_lsb", 32)],
   mkReg "reg_rx_rm_cnt_cycles_msb" [("rx_rm_cnt_cycles_msb", 32)]]

/-- Every field descriptor of both register blocks. -/
def allFields : List Field :=
  ((mainBlock ++ testBlock).map Reg.fields).flatten

/-! ### The register field codec

Modelled from the spec (§4.1): the repository contains no codec code, only
the register maps the codec operates on. -/

/-- The all-ones mask of width `w`. -/
def mask (w : Nat) : Nat := 2 ^ w - 1

/-- Modelled from the spec: `extract(raw, field)` returns the right-shifted,
width-masked unsigned value of the field. -/
def extract (raw : Nat) (f : Field) : Nat :=
  (raw >>> f.offset) &&& mask f.width

/-- Modelled from the spec: `insert(raw, field, value)` clears the field's
bits in `raw` and ORs the value, truncated to `width` bits, shifted into
place; all arithmetic is 32-bit (reduced mod `2 ^ 32`). -/
def insert (raw : Nat) (f : Field) (v : Nat) : Nat :=
  ((raw &&& (mask 32 ^^^ ((mask f.width <<< f.offset) % 2 ^ 32))) |||
    ((v &&& mask f.width) <<< f.offset)) % 2 ^ 32

/-- Error condition of the strict-mode codec. -/
inductive CodecError where
  | OutOfRange
deriving DecidableEq, Repr

/-- Modelled from the spec: strict-mode insert fails with `OutOfRange` when
the value exceeds `2 ^ width - 1`, and otherwise returns the updated raw
value. -/
def insertStrict (raw : Nat) (f : Field) (v : Nat) : Except CodecError Nat :=
  if 2 ^ f.width - 1 < v then Except.error CodecError.OutOfRange
  else Except.ok (insert raw f v)

/-! ### Codec lemmas -/

theorem extract_lt (raw : Nat) (f : Field) : extract raw f < 2 ^ f.width := by
  have h1 : extract raw f ≤ mask f.width := Nat.and_le_right
  have h2 : 0 < 2 ^ f.width := Nat.pos_pow_of_pos _ (by norm_num)
  simp only [mask] at h1
  omega

/-- Round trip for any field descriptor that fits inside the 32-bit word:
extracting after inserting returns the value reduced mod `2 ^ width`. -/
theorem extract_insert_eq_mod (f : Field) (hf : f.offset + f.width ≤ 32)
    (raw v : Nat) : extract (insert raw f v) f = v % 2 ^ f.width := by
  apply Nat.eq_of_testBit_eq
  intro i
  simp only [extract, insert, mask, Nat.testBit_and, Nat.testBit_or, Nat.testBit_xor,
    Nat.testBit_shiftLeft, Nat.testBit_shiftRight, Nat.testBit_mod_two_pow,
    Nat.testBit_two_pow_sub_one]
  by_cases hi : i < f.width
  · have h1 : f.offset + i < 32 := by omega
    have h2 : f.offset ≤ f.offset + i := by omega
    have h3 : f.offset + i - f.offset = i := by omega
    simp [h1, h2, h3, hi]
  · simp [hi]

/-- `insert` leaves every bit outside the field's declared bit range
unchanged, for any 32-bit raw value. -/
theorem insert_testBit_outside (f : Field) (raw v b : Nat) (hraw : raw < 2 ^ 32)
    (hb : b < f.offset ∨ f.offset + f.width ≤ b) :
    (insert raw f v).testBit b = raw.testBit b := by
  by_cases h32 : b < 32
  · simp only [insert, mask, Nat.testBit_and, Nat.testBit_or, Nat.testBit_xor,
      Nat.testBit_shiftLeft, Nat.testBit_mod_two_pow, Nat.testBit_two_pow_sub_one]
    rcases hb with hb | hb
    · have h1 : ¬ f.offset ≤ b := by omega
      simp [h32, h1]
    · have h1 : f.offset ≤ b := by omega
      have h2 : ¬ b - f.offset < f.width := by omega
      simp [h32, h1, h2]
  · have hb32 : 32 ≤ b := by omega
    have hpow : (2 : Nat) ^ 32 ≤ 2 ^ b := Nat.pow_le_pow_right (by norm_num) hb32
    have hlt : insert raw f v < 2 ^ 32 := by
      unfold insert
      exact Nat.mod_lt _ (by positivity)
    have e1 : (insert raw f v).testBit b =
        false := Nat.testBit_lt_two_pow (lt_of_lt_of_le hlt hpow)
    have e2 : raw.testBit b = false :=
      Nat.testBit_lt_two_pow (lt_of_lt_of_le hraw hpow)
    rw [e1, e2]

/-! ### Register well-formedness checks -/

/-- The sum of the declared field widths of a register. -/
def regWidthSum (r : Reg) : Nat := (r.fields.map Field.width).sum

/-- Pairwise disjointness of the declared bit ranges of a field list. -/
def fieldRangesDisjoint : List Field → Bool
  | [] => true
  | f :: rest =>
    rest.all (fun g => decide (f.offset + f.width ≤ g.offset) ||
      decide (g.offset + g.width ≤ f.offset)) && fieldRangesDisjoint rest

/-- The invariant claimed for every register: pairwise disjoint field
ranges whose widths sum to exactly 32 bits. -/
def regWellFormed (r : Reg) : Bool :=
  fieldRangesDisjoint r.fields && decide (regWidthSum r = 32)

/-- Bit position of a named field within a register, when present. -/
def bitPosOf (r : Reg) (n : String) : Option Nat :=
  (r.fields.find? fun f => f.name == n).map Field.offset

/-- True when the name of a field starts with `irq_`. -/
def isIrqField (f : Field) : Bool :=
  match f.name.data with
  | 'i' :: 'r' :: 'q' :: '_' :: _ => true
  | _ => false

/-- Number of named interrupt-source fields of a register. -/
def irqSourceCount (r : Reg) : Nat := (r.fields.filter isIrqField).length

/-- An interrupt source named `n` sits at one and the same bit position in
all four sibling registers (status, enable, clear, set). -/
def siblingsAligned (stat enab clr st : Reg) (bases : List String) : Bool :=
  bases.all fun n =>
    (bitPosOf stat (n ++ "_status")).isSome &&
    bitPosOf enab (n ++ "_enable") == bitPosOf stat (n ++ "_status") &&
    bitPosOf clr (n ++ "_clear") == bitPosOf stat (n ++ "_status") &&
    bitPosOf st (n ++ "_set") == bitPosOf stat (n ++ "_status")

/-- The nine interrupt sources of the main engine. -/
def mainIrqSources : List String :=
  ["irq_init_done", "irq_arp_table_clear_done", "irq_arp_ip_conflict",
   "irq_arp_mac_conflict", "irq_arp_error", "irq_arp_rx_fifo_overflow",
   "irq_router_data_rx_fifo_overflow", "irq_router_crc_rx_fifo_overflow",
   "irq_ipv4_rx_frag_offset_error"]

/-- The ten interrupt sources of the test engine. -/
def testIrqSources : List String :=
  ["irq_gen_done", "irq_gen_err_timeout", "irq_chk_done",
   "irq_chk_err_frame_size", "irq_chk_err_data", "irq_chk_err_timeout",
   "irq_rate_meter_tx_done", "irq_rate_meter_tx_overflow",
   "irq_rate_meter_rx_done", "irq_rate_meter_rx_overflow"]

/-! ### The interrupt aggregator

Modelled from the spec (§4.2): the headers declare the four interrupt
registers but no behaviour; the aggregator semantics below follow the
spec's words. -/

/-- Modelled from the spec: the state of one module's interrupt aggregator,
its 32-bit status word and its 32-bit enable word. -/
structure AggState where
  status : Nat
  enable : Nat
deriving DecidableEq, Repr

/-- Modelled from the spec: `is_pending(s)` reads the status register bit. -/
def is_pending (st : AggState) (s : Nat) : Bool := st.status.testBit s

/-- Modelled from the spec: `force(s)` writes the set register, which makes
hardware assert the status bit of `s`. -/
def force (st : AggState) (s : Nat) : AggState :=
  { st with status := (st.status ||| (1 <<< s)) % 2 ^ 32 }

/-- Modelled from the spec: `clear(s)` writes a 1 to bit `s` of the clear
register, which deasserts the status bit (absent a concurrent hardware
assertion, which this pure model has none of). -/
def clear (st : AggState) (s : Nat) : AggState :=
  { st with status := st.status &&& (mask 32 ^^^ ((1 <<< s) % 2 ^ 32)) }

/-- Modelled from the spec: `set_enabled(s, b)` writes the enable register
bit of `s`; it touches only the enable word. -/
def set_enabled (st : AggState) (s : Nat) (b : Bool) : AggState :=
  { st with enable :=
      if b then (st.enable ||| (1 <<< s)) % 2 ^ 32
      else st.enable &&& (mask 32 ^^^ ((1 <<< s) % 2 ^ 32)) }

/-- Modelled from the spec: the main engine and the test engine each
instantiate the aggregator independently, on their own registers. -/
structure UoeIrqState where
  main : AggState
  test : AggState
deriving DecidableEq, Repr

def mainForce (st : UoeIrqState) (s : Nat) : UoeIrqState :=
  { st with main := force st.main s }

def mainClear (st : UoeIrqState) (s : Nat) : UoeIrqState :=
  { st with main := clear st.main s }

def testForce (st : UoeIrqState) (s : Nat) : UoeIrqState :=
  { st with test := force st.test s }

def testClear (st : UoeIrqState) (s : Nat) : UoeIrqState :=
  { st with test := clear st.test s }

/-! ### The built-in-test enumeration, `enums_uoe_registers.h` -/

/-- The built-in-test enumeration `T_BIT` of `enums_uoe_registers.h`. -/
inductive T_BIT where
  | no_bit
  | pbit
  | ibit
  | cbit
deriving DecidableEq, Repr

/-- The numeric encodings declared in the header:
`no_bit = 0, pbit = 1, ibit = 2, cbit = 3`. -/
def T_BIT.toNat : T_BIT → Nat
  | .no_bit => 0
  | .pbit => 1
  | .ibit => 2
  | .cbit => 3

/-- The values of `T_BIT`, in declaration order. -/
def T_BIT.values : List T_BIT := [.no_bit, .pbit, .ibit, .cbit]

/-- Byte offset of the `i`-th 32-bit word of a register block. -/
def wordByteOffset (i : Nat) : Nat := 4 * i

/-! ### The claims -/

/-- Claim C1 fails on the register maps as declared: `reg_gen_config` of the
test block declares 41 bits of fields, so the descriptor of
`gen_frame_size_static` (bit offset 17, width 16, offset + width = 33 > 32)
spills past the 32-bit word, and the extract-insert round trip loses the top
bit of the value: inserting 32768 into raw 0 and then extracting yields 0,
not 32768 = 32768 mod 2 ^ 16. -/
theorem C1_roundtrip_fails_on_declared_map :
    (⟨"gen_frame_size_static", 17, 16⟩ : Field) ∈ allFields ∧
    extract (insert 0 ⟨"gen_frame_size_static", 17, 16⟩ 32768)
      ⟨"gen_frame_size_static", 17, 16⟩ = 0 ∧
    (32768 : Nat) % 2 ^ 16 = 32768 :=
  ⟨by decide, by decide, by decide⟩

/-- Claim C2: for every field descriptor of the register maps, for every
32-bit raw value and every value, `insert` leaves every bit outside the
field's declared bit range unchanged. -/
theorem C2_insert_preserves_outside_bits :
    ∀ f ∈ allFields, ∀ raw < 2 ^ 32, ∀ v b : Nat,
      (b < f.offset ∨ f.offset + f.width ≤ b) →
      (insert raw f v).testBit b = raw.testBit b := by
  intro f _ raw hraw v b hb
  exact insert_testBit_outside f raw v b hraw hb

/-- Witness for claim C2 at the `arp_tryings` field, raw 5, value 7, bit 0. -/
theorem C2_insert_preserves_outside_bits_witness :
    (⟨"arp_tryings", 12, 4⟩ : Field) ∈ allFields ∧ (5 : Nat) < 2 ^ 32 ∧
    ((0 : Nat) < (⟨"arp_tryings", 12, 4⟩ : Field).offset ∨
      (⟨"arp_tryings", 12, 4⟩ : Field).offset +
        (⟨"arp_tryings", 12, 4⟩ : Field).width ≤ 0) ∧
    (insert 5 ⟨"arp_tryings", 12, 4⟩ 7).testBit 0 = (5 : Nat).testBit 0 :=
  ⟨by decide, by norm_num, by decide,
    C2_insert_preserves_outside_bits ⟨"arp_tryings", 12, 4⟩ (by decide) 5
      (by norm_num) 7 0 (by decide)⟩

/-- Claim C3 fails on the code: `reg_gen_config` and `reg_chk_config` of the
test block each declare field widths summing to 41 bits (1 + 16 + 16 + 8),
not 32, so their fields cannot span a 32-bit register; every other register
of both blocks satisfies the disjoint-and-span-32 invariant. -/
theorem C3_field_span_violation :
    regWidthSum test_reg_gen_config = 41 ∧
    regWellFormed test_reg_gen_config = false ∧
    regWidthSum test_reg_chk_config = 41 ∧
    regWellFormed test_reg_chk_config = false ∧
    ((mainBlock ++ testBlock).filter (fun r => ! regWellFormed r)).map Reg.name =
      ["reg_gen_config", "reg_chk_config"] :=
  ⟨by decide, by decide, by decide, by decide, by decide⟩

/-- Claim C4: in both the main block and the test block, every interrupt
source sits at the same bit position in all four sibling interrupt registers
(status, enable, clear, set); the listed sources are exactly the named
interrupt fields of the status registers. -/
theorem C4_sibling_bit_positions :
    siblingsAligned main_reg_interrupt_status main_reg_interrupt_enable
      main_reg_interrupt_clear main_reg_interrupt_set mainIrqSources = true ∧
    siblingsAligned test_reg_interrupt_status test_reg_interrupt_enable
      test_reg_interrupt_clear test_reg_interrupt_set testIrqSources = true ∧
    mainIrqSources.map (fun n => n ++ "_status") =
      (main_reg_interrupt_status.fields.filter isIrqField).map Field.name ∧
    testIrqSources.map (fun n => n ++ "_status") =
      (test_reg_interrupt_status.fields.filter isIrqField).map Field.name :=
  ⟨by decide, by decide, by decide, by decide⟩

/-- Claim C5: for every interrupt source bit `s` of the 32-bit status word,
`force(s)` makes `is_pending(s)` true; `clear(s)` (with no concurrent
hardware assertion in this pure model) makes `is_pending(s)` false; and
`set_enabled(s, false)` leaves the status word, hence `is_pending(s)`,
unchanged. -/
theorem C5_aggregator_contract (st : AggState) (s : Nat) (hs : s < 32) :
    is_pending (force st s) s = true ∧
    is_pending (clear st s) s = false ∧
    (set_enabled st s false).status = st.status ∧
    is_pending (set_enabled st s false) s = is_pending st s := by
  have h1 : Nat.testBit 1 0 = true := rfl
  refine ⟨?_, ?_, rfl, rfl⟩
  · simp only [is_pending, force, Nat.testBit_mod_two_pow, Nat.testBit_or,
      Nat.testBit_shiftLeft]
    simp [hs, h1, Nat.sub_self]
  · simp only [is_pending, clear, mask, Nat.testBit_and, Nat.testBit_xor,
      Nat.testBit_mod_two_pow, Nat.testBit_shiftLeft, Nat.testBit_two_pow_sub_one]
    simp [hs, h1, Nat.sub_self]

/-- Witness for claim C5 at the state with status 0 and enable 0, source 2. -/
theorem C5_aggregator_contract_witness :
    (2 : Nat) < 32 ∧
    (is_pending (force ⟨0, 0⟩ 2) 2 = true ∧
      is_pending (clear ⟨0, 0⟩ 2) 2 = false ∧
      (set_enabled ⟨0, 0⟩ 2 false).status = (⟨0, 0⟩ : AggState).status ∧
      is_pending (set_enabled ⟨0, 0⟩ 2 false) 2 = is_pending ⟨0, 0⟩ 2) :=
  ⟨by norm_num, C5_aggregator_contract ⟨0, 0⟩ 2 (by norm_num)⟩

/-- Claim C6: in strict mode, for every field of the register maps,
`insertStrict` fails with `OutOfRange` exactly when the value exceeds
`2 ^ width - 1`, and otherwise succeeds with the updated raw value. -/
theorem C6_insertStrict_contract (raw v : Nat) (f : Field)
    (_hf : f ∈ allFields) :
    (2 ^ f.width - 1 < v →
      insertStrict raw f v = Except.error CodecError.OutOfRange) ∧
    (v ≤ 2 ^ f.width - 1 →
      insertStrict raw f v = Except.ok (insert raw f v)) := by
  constructor
  · intro h
    simp [insertStrict, h]
  · intro h
    have h2 : ¬ 2 ^ f.width - 1 < v := Nat.not_lt.mpr h
    simp [insertStrict, h2]

/-- Witness for claim C6 at the 1-bit `config_done` field, raw 0, value 5. -/
theorem C6_insertStrict_contract_witness :
    (⟨"config_done", 0, 1⟩ : Field) ∈ allFields ∧
    ((2 ^ (⟨"config_done", 0, 1⟩ : Field).width - 1 < 5 →
      insertStrict 0 ⟨"config_done", 0, 1⟩ 5 = Except.error CodecError.OutOfRange) ∧
     ((5 : Nat) ≤ 2 ^ (⟨"config_done", 0, 1⟩ : Field).width - 1 →
      insertStrict 0 ⟨"config_done", 0, 1⟩ 5 =
        Except.ok (insert 0 ⟨"config_done", 0, 1⟩ 5))) :=
  ⟨by decide, C6_insertStrict_contract 0 5 ⟨"config_done", 0, 1⟩ (by decide)⟩

/-- Claim C7: `reg_arp_configuration` of the main block declares
`arp_timeout_ms` at bits 0..11 with width 12 and `arp_tryings` at bits
12..15 with width 4, so every extracted retry bound is at most 15 and every
extracted timeout is at most 4095. -/
theorem C7_arp_field_widths :
    (⟨"arp_timeout_ms", 0, 12⟩ : Field) ∈ main_reg_arp_configuration.fields ∧
    (⟨"arp_tryings", 12, 4⟩ : Field) ∈ main_reg_arp_configuration.fields ∧
    (∀ raw : Nat, extract raw ⟨"arp_tryings", 12, 4⟩ ≤ 15) ∧
    (∀ raw : Nat, extract raw ⟨"arp_timeout_ms", 0, 12⟩ ≤ 4095) := by
  refine ⟨by decide, by decide, fun raw => ?_, fun raw => ?_⟩
  · have h : extract raw ⟨"arp_tryings", 12, 4⟩ < 16 :=
      extract_lt raw ⟨"arp_tryings", 12, 4⟩
    omega
  · have h : extract raw ⟨"arp_timeout_ms", 0, 12⟩ < 4096 :=
      extract_lt raw ⟨"arp_timeout_ms", 0, 12⟩
    omega

/-- Claim C8: each of the four main-block interrupt registers carries
exactly 9 named interrupt sources, each of the four test-block interrupt
registers carries exactly 10, and the two modules' aggregator instances
operate on disjoint state: main-side operations never change the test
aggregator state and conversely. -/
theorem C8_source_counts_and_independence :
    irqSourceCount main_reg_interrupt_status = 9 ∧
    irqSourceCount main_reg_interrupt_enable = 9 ∧
    irqSourceCount main_reg_interrupt_clear = 9 ∧
    irqSourceCount main_reg_interrupt_set = 9 ∧
    irqSourceCount test_reg_interrupt_status = 10 ∧
    irqSourceCount test_reg_interrupt_enable = 10 ∧
    irqSourceCount test_reg_interrupt_clear = 10 ∧
    irqSourceCount test_reg_interrupt_set = 10 ∧
    (∀ (st : UoeIrqState) (s : Nat),
      (mainForce st s).test = st.test ∧ (mainClear st s).test = st.test ∧
      (testForce st s).main = st.main ∧ (testClear st s).main = st.main) :=
  ⟨by decide, by decide, by decide, by decide, by decide, by decide, by decide,
    by decide, fun _ _ => ⟨rfl, rfl, rfl, rfl⟩⟩

/-- Claim C9: the built-in-test enumeration `T_BIT` has exactly the four
values `no_bit`, `pbit`, `ibit`, `cbit`, with numeric encodings 0, 1, 2, 3. -/
theorem C9_tbit_enumeration :
    (∀ t : T_BIT, t ∈ T_BIT.values) ∧ T_BIT.values.length = 4 ∧
    T_BIT.values.Nodup ∧
    T_BIT.toNat .no_bit = 0 ∧ T_BIT.toNat .pbit = 1 ∧
    T_BIT.toNat .ibit = 2 ∧ T_BIT.toNat .cbit = 3 := by
  refine ⟨fun t => ?_, by decide, by decide, rfl, rfl, rfl, rfl⟩
  cases t <;> simp [T_BIT.values]

/-- Claim C10: the main block is 25 consecutive 32-bit words (100 bytes);
the full-word padding member `padding15` is the word right after
`reg_config_done`, which puts `reg_monitoring_crc_filter` at word index 16
(the 17th word), byte offset 64 = 0x40. -/
theorem C10_main_block_layout :
    mainBlock.length = 25 ∧
    wordByteOffset mainBlock.length = 100 ∧
    (mainBlock[14]?).map Reg.name = some "reg_config_done" ∧
    (mainBlock[15]?).map Reg.name = some "padding15" ∧
    (mainBlock[16]?).map Reg.name = some "reg_monitoring_crc_filter" ∧
    wordByteOffset 16 = 64 :=
  ⟨by decide, by decide, by decide, by decide, by decide, by decide⟩

end UOE

